import Mathlib

/-!
Shallow embedding of the questionnaire application
`app22_offline_local_sqlite_v3_pt_ar_embedded_b3_adminfix_fuller_pt_ar.py`.

The session response map (`st.session_state["responses"]`) maps string field
names to JSON-like Python values; `Val` models exactly the value shapes the
application stores (strings, ints, lists, string-keyed dicts, and `None`).
Python dicts are modelled as association lists in insertion order with unique
keys (first binding wins on lookup, matching `dict.get`).

String primitives (`strip`, `lower`, `int(...)`) are re-implemented over
character lists so that every definition evaluates inside the kernel.
-/

inductive Val : Type where
  | str (s : String)
  | int (n : Int)
  | list (xs : List Val)
  | dict (kvs : List (String × Val))
  | none
  deriving Repr

mutual

def Val.decEq (a b : Val) : Decidable (a = b) :=
  match a, b with
  | Val.str a, Val.str b =>
    match String.decEq a b with
    | isTrue h => isTrue (by rw [h])
    | isFalse h => isFalse (fun hh => by cases hh; exact h rfl)
  | Val.int a, Val.int b =>
    match Int.decEq a b with
    | isTrue h => isTrue (by rw [h])
    | isFalse h => isFalse (fun hh => by cases hh; exact h rfl)
  | Val.none, Val.none => isTrue rfl
  | Val.list as, Val.list bs =>
    match Val.decEqList as bs with
    | isTrue h => isTrue (by rw [h])
    | isFalse h => isFalse (fun hh => by cases hh; exact h rfl)
  | Val.dict as, Val.dict bs =>
    match Val.decEqDict as bs with
    | isTrue h => isTrue (by rw [h])
    | isFalse h => isFalse (fun hh => by cases hh; exact h rfl)
  | Val.str _, Val.int _ => isFalse (fun h => by cases h)
  | Val.str _, Val.list _ => isFalse (fun h => by cases h)
  | Val.str _, Val.dict _ => isFalse (fun h => by cases h)
  | Val.str _, Val.none => isFalse (fun h => by cases h)
  | Val.int _, Val.str _ => isFalse (fun h => by cases h)
  | Val.int _, Val.list _ => isFalse (fun h => by cases h)
  | Val.int _, Val.dict _ => isFalse (fun h => by cases h)
  | Val.int _, Val.none => isFalse (fun h => by cases h)
  | Val.list _, Val.str _ => isFalse (fun h => by cases h)
  | Val.list _, Val.int _ => isFalse (fun h => by cases h)
  | Val.list _, Val.dict _ => isFalse (fun h => by cases h)
  | Val.list _, Val.none => isFalse (fun h => by cases h)
  | Val.dict _, Val.str _ => isFalse (fun h => by cases h)
  | Val.dict _, Val.int _ => isFalse (fun h => by cases h)
  | Val.dict _, Val.list _ => isFalse (fun h => by cases h)
  | Val.dict _, Val.none => isFalse (fun h => by cases h)
  | Val.none, Val.str _ => isFalse (fun h => by cases h)
  | Val.none, Val.int _ => isFalse (fun h => by cases h)
  | Val.none, Val.list _ => isFalse (fun h => by cases h)
  | Val.none, Val.dict _ => isFalse (fun h => by cases h)
  termination_by structural a

def Val.decEqList (as bs : List Val) : Decidable (as = bs) :=
  match as, bs with
  | [], [] => isTrue rfl
  | a :: as, b :: bs =>
    match Val.decEq a b, Val.decEqList as bs with
    | isTrue h1, isTrue h2 => isTrue (by rw [h1, h2])
    | isFalse h1, _ => isFalse (fun hh => by injection hh with hh1 hh2; exact h1 hh1)
    | isTrue _, isFalse h2 => isFalse (fun hh => by injection hh with hh1 hh2; exact h2 hh2)
  | [], _ :: _ => isFalse (fun h => by cases h)
  | _ :: _, [] => isFalse (fun h => by cases h)
  termination_by structural as

def Val.decEqDict (as bs : List (String × Val)) : Decidable (as = bs) :=
  match as, bs with
  | [], [] => isTrue rfl
  | (k1, v1) :: as, (k2, v2) :: bs =>
    match String.decEq k1 k2, Val.decEq v1 v2, Val.decEqDict as bs with
    | isTrue hk, isTrue hv, isTrue ht => isTrue (by rw [hk, hv, ht])
    | isFalse hk, _, _ => isFalse (fun hh => by injection hh with hh1 hh2; cases hh1; exact hk rfl)
    | isTrue _, isFalse hv, _ => isFalse (fun hh => by injection hh with hh1 hh2; cases hh1; exact hv rfl)
    | isTrue _, isTrue _, isFalse ht => isFalse (fun hh => by injection hh with hh1 hh2; exact ht hh2)
  | [], _ :: _ => isFalse (fun h => by cases h)
  | _ :: _, [] => isFalse (fun h => by cases h)
  termination_by structural as

end

instance : DecidableEq Val := Val.decEq

abbrev RespMap := List (String × Val)

/-- Association-list lookup: Python `d.get(k)` (first binding wins). -/
def alistGet (kvs : List (String × Val)) (k : String) : Option Val :=
  match kvs.find? (fun p => p.1 == k) with
  | Option.some p => Option.some p.2
  | Option.none => Option.none

/-- Python `d.get(k, default)`. -/
def alistGetD (kvs : List (String × Val)) (k : String) (d : Val) : Val :=
  (alistGet kvs k).getD d

/-- Python dict assignment `d[k] = v`: overwrite in place, else append. -/
def dictSet (kvs : List (String × Val)) (k : String) (v : Val) : List (String × Val) :=
  if (kvs.find? (fun p => p.1 == k)).isSome then
    kvs.map (fun p => if p.1 == k then (p.1, v) else p)
  else
    kvs ++ [(k, v)]

/-- Model of `resp_get(key, default)` (source lines 2942-2944). -/
def respGetD (rs : RespMap) (k : String) (d : Val) : Val :=
  alistGetD rs k d

/-- Python `isinstance(x, list)` coercion pattern
`if not isinstance(x, list): x = []`, plus extraction of the elements. -/
def valAsList : Val → List Val
  | Val.list xs => xs
  | _ => []

/-- Python `isinstance(x, dict)` coercion pattern
`if not isinstance(x, dict): x = {}` (also covering `... or {}`: every falsy
non-dict value is likewise replaced by `{}`, and a truthy non-dict value
never occurs in the stored state — in Python it would raise on the
subsequent `.get`/`.items` call). -/
def valAsDict : Val → List (String × Val)
  | Val.dict kvs => kvs
  | _ => []

/-- Python truthiness `bool(v)` on the stored value shapes. -/
def valTruthy : Val → Bool
  | Val.str s => !(s == "")
  | Val.int n => !(n == 0)
  | Val.list xs => !xs.isEmpty
  | Val.dict kvs => !kvs.isEmpty
  | Val.none => false

/-- Whitespace as recognised by Python `str.strip()` for the ASCII range;
the questionnaire state never contains other Unicode space characters. -/
def isPySpace (c : Char) : Bool :=
  c == ' ' || c == '\t' || c == '\n' || c == '\x0d' || c == '\x0b' || c == '\x0c'

/-- Python `s.strip()` over the character list. -/
def pyTrimChars (cs : List Char) : List Char :=
  ((cs.dropWhile isPySpace).reverse.dropWhile isPySpace).reverse

/-- Python `s.strip()`. -/
def pyTrim (s : String) : String :=
  ⟨pyTrimChars s.data⟩

/-- Python `s.lower()` (the app only lowercases ASCII e-mail text). -/
def pyLower (s : String) : String :=
  ⟨s.data.map Char.toLower⟩

/-- Decimal digits of Python `int(...)` parsing. -/
def digitsToNat (cs : List Char) : Nat :=
  cs.foldl (fun a c => a * 10 + (c.toNat - 48)) 0

/-- Python `int(s)` on a string: optional surrounding whitespace, optional
sign, decimal digits; `Option.none` models the raised `ValueError`. -/
def pyStrToInt (s : String) : Option Int :=
  match pyTrimChars s.data with
  | [] => Option.none
  | '+' :: rest =>
    if rest ≠ [] ∧ rest.all Char.isDigit then Option.some (Int.ofNat (digitsToNat rest))
    else Option.none
  | '-' :: rest =>
    if rest ≠ [] ∧ rest.all Char.isDigit then Option.some (-(Int.ofNat (digitsToNat rest)))
    else Option.none
  | cs =>
    if cs.all Char.isDigit then Option.some (Int.ofNat (digitsToNat cs))
    else Option.none

/-- Python `int(v)` on a stored value; `Option.none` models the raised
`TypeError`/`ValueError` (every caller wraps the call in `try/except`). -/
def pyToInt : Val → Option Int
  | Val.int n => Option.some n
  | Val.str s => pyStrToInt s
  | _ => Option.none

/-- Python `str(v)` for the stored value shapes.  List/dict reprs are
abstracted by fixed nonempty marker strings: the app only feeds the result
to blank tests and to membership tests against fixed option labels, and a
Python list/dict repr is never blank and never equals such a label. -/
def pyStr : Val → String
  | Val.str s => s
  | Val.int n => toString n
  | Val.none => "None"
  | Val.list _ => "[...]"
  | Val.dict _ => "\x7b...\x7d"

/-- The recurring field-read idiom `(resp_get(k, "") or "").strip()` (and
`resp_get(k, "").strip()` for fields the UI only ever fills with strings):
missing, `None` and falsy values give `""`; stored strings are stripped. -/
def strField (rs : RespMap) (k : String) : String :=
  match alistGet rs k with
  | Option.some (Val.str s) => pyTrim s
  | _ => ""

/-- Python `len(set(xs)) == len(xs)` (no duplicates), with structural
equality; the app only puts strings in the deduplicated lists. -/
def pyNoDup (xs : List Val) : Bool :=
  xs.dedup.length == xs.length

example : pyStrToInt " 12 " = Option.some 12 := by decide
example : pyStrToInt "+3" = Option.some 3 := by decide
example : pyStrToInt "-7" = Option.some (-7) := by decide
example : pyStrToInt "3.5" = Option.none := by decide
example : pyStrToInt "" = Option.none := by decide
example : pyToInt (Val.str "abc") = Option.none := by decide
example : strField [("email", Val.str " a@b.c ")] "email" = "a@b.c" := by decide
example : pyLower "A@B.c" = "a@b.c" := by decide
example : pyNoDup [Val.str "a", Val.str "b", Val.str "a"] = false := by decide

/-! Basic facts about the string primitives: `strip` and `lower` are
idempotent (needed because the app strips/lowers e-mail text once in the
UI layer and again inside the persistence helpers). -/

theorem dropWhile_heads_false (p : Char → Bool) (xs : List Char)
    (h : ∀ a ∈ xs.head?, p a = false) : xs.dropWhile p = xs := by
  cases xs with
  | nil => rfl
  | cons a t =>
    have ha : p a = false := h a rfl
    simp [List.dropWhile_cons, ha]

theorem head?_dropWhile_false (p : Char → Bool) (xs : List Char) :
    ∀ a ∈ (xs.dropWhile p).head?, p a = false := by
  induction xs with
  | nil => intro a ha; cases ha
  | cons b t ih =>
    intro a ha
    by_cases hb : p b
    · simp only [List.dropWhile_cons, hb, if_true] at ha
      exact ih a ha
    · simp only [List.dropWhile_cons, hb, if_false] at ha
      cases ha
      simpa using hb

theorem getLast?_dropWhile (p : Char → Bool) (xs : List Char)
    (h : xs.dropWhile p ≠ []) : (xs.dropWhile p).getLast? = xs.getLast? := by
  conv_rhs => rw [← List.takeWhile_append_dropWhile (p := p) (l := xs)]
  rw [List.getLast?_append]
  cases hd : (xs.dropWhile p).getLast? with
  | none => exact absurd (List.getLast?_eq_none_iff.mp hd) h
  | some a => rfl

theorem pyTrimChars_head?_false (cs : List Char) :
    ∀ a ∈ (pyTrimChars cs).head?, isPySpace a = false := by
  intro a ha
  unfold pyTrimChars at ha
  rw [List.head?_reverse] at ha
  by_cases hemp : ((cs.dropWhile isPySpace).reverse.dropWhile isPySpace) = []
  · rw [hemp] at ha; cases ha
  · rw [getLast?_dropWhile isPySpace _ hemp, List.getLast?_reverse] at ha
    exact head?_dropWhile_false isPySpace cs a ha

theorem pyTrimChars_getLast?_false (cs : List Char) :
    ∀ a ∈ (pyTrimChars cs).getLast?, isPySpace a = false := by
  intro a ha
  unfold pyTrimChars at ha
  rw [List.getLast?_reverse] at ha
  exact head?_dropWhile_false isPySpace _ a ha

theorem pyTrimChars_of_trimmed (cs : List Char)
    (h1 : ∀ a ∈ cs.head?, isPySpace a = false)
    (h2 : ∀ a ∈ cs.getLast?, isPySpace a = false) : pyTrimChars cs = cs := by
  unfold pyTrimChars
  rw [dropWhile_heads_false isPySpace cs h1]
  rw [dropWhile_heads_false isPySpace cs.reverse (by
    intro a ha
    rw [List.head?_reverse] at ha
    exact h2 a ha)]
  exact List.reverse_reverse cs

theorem pyTrimChars_idem (cs : List Char) :
    pyTrimChars (pyTrimChars cs) = pyTrimChars cs :=
  pyTrimChars_of_trimmed _ (pyTrimChars_head?_false cs) (pyTrimChars_getLast?_false cs)

theorem pyTrim_idem (s : String) : pyTrim (pyTrim s) = pyTrim s := by
  unfold pyTrim
  exact congrArg String.mk (pyTrimChars_idem s.data)

theorem char_toNat_ofNat_valid (n : Nat) (h : n < 55296) : (Char.ofNat n).toNat = n := by
  unfold Char.ofNat
  rw [dif_pos (Or.inl h)]
  rfl

theorem char_toLower_idem (c : Char) : c.toLower.toLower = c.toLower := by
  unfold Char.toLower
  by_cases h : c.toNat ≥ 65 ∧ c.toNat ≤ 90
  · rw [if_pos h]
    have hv : (Char.ofNat (c.toNat + 32)).toNat = c.toNat + 32 :=
      char_toNat_ofNat_valid _ (by omega)
    rw [if_neg (by rw [hv]; omega)]
  · rw [if_neg h, if_neg h]

theorem pyLower_idem (s : String) : pyLower (pyLower s) = pyLower s := by
  unfold pyLower
  refine congrArg String.mk ?_
  rw [List.map_map]
  exact List.map_congr_left (fun c _ => char_toLower_idem c)

theorem pyLower_eq_empty_iff (s : String) : pyLower s = "" ↔ s = "" := by
  constructor
  · intro h
    have hd := congrArg String.data h
    cases s with
    | mk data =>
      cases data with
      | nil => rfl
      | cons c t => simp [pyLower] at hd
  · intro h; rw [h]; rfl

/-! The i18n lookup helper `t(lang, fr, en, pt=None, ar=None)` (source line
2846).  The embedded PT/AR translation dictionaries are static lookup
tables of several hundred literal strings; they are elided here (every
lookup misses and falls back to the English text, exactly the source's
behaviour for untranslated keys).  No property in this development depends
on the rendered text of a message, only on how many messages a validator
returns. -/

def PT_TRANSLATIONS : String → Option String := fun _ => Option.none

def AR_TRANSLATIONS : String → Option String := fun _ => Option.none

def t (lang fr en : String) (pt ar : Option String) : String :=
  if lang == "fr" then fr
  else if lang == "en" then en
  else if lang == "pt" then
    match pt with
    | Option.some s => s
    | Option.none => ((PT_TRANSLATIONS en).orElse (fun _ => PT_TRANSLATIONS fr)).getD en
  else if lang == "ar" then
    match ar with
    | Option.some s => s
    | Option.none => ((AR_TRANSLATIONS en).orElse (fun _ => AR_TRANSLATIONS fr)).getD en
  else en

def LANG_OPTIONS : List String := ["fr", "en", "pt", "ar"]

/-- Labels recognised by `is_other_value` (source line 2870). -/
def OTHER_LABELS : List String := ["Autre", "Other", "Outro", "أخرى", "Autres", "Outros"]

/-- Model of `is_other_value(v)`: `str(v or "").strip()` against the label
set.  Only string values can match a label. -/
def is_other_value (v : Val) : Bool :=
  OTHER_LABELS.contains (pyTrim (if valTruthy v then pyStr v else ""))

/-- Model of `has_other_option(values)` (source line 2873). -/
def has_other_option (v : Val) : Bool :=
  match v with
  | Val.list xs => xs.any is_other_value
  | _ => false

/-- Domain part of `EMAIL_RE`: `[^@\s]+\.[^@\s]+` needs a dot with at least
one character before and after it (whitespace and `@` are excluded by the
surrounding checks). -/
def emailDomOk (dom : List Char) : Bool :=
  match dom with
  | [] => false
  | _ :: rest => rest.dropLast.contains '.'

/-- Model of `EMAIL_RE = re.compile(r"^[^@\s]+@[^@\s]+\.[^@\s]+$")` applied
via `.match` (source line 3941): nonempty local part, exactly one `@`, no
whitespace, and an interior dot in the domain. -/
def EMAIL_RE_match (s : String) : Bool :=
  let cs := s.data
  match cs.dropWhile (fun c => !(c == '@')) with
  | '@' :: dom =>
    !(cs.takeWhile (fun c => !(c == '@'))).isEmpty &&
    !dom.contains '@' &&
    cs.all (fun c => !c.isWhitespace) &&
    emailDomOk dom
  | _ => false

example : EMAIL_RE_match "a@b.com" = true := by decide
example : EMAIL_RE_match "a@b" = false := by decide
example : EMAIL_RE_match "a@b." = false := by decide
example : EMAIL_RE_match "a b@c.d" = false := by decide
example : EMAIL_RE_match "a@b@c.d" = false := by decide

/-! Per-section validators (source lines 3944-4200 and 5073-5120).  Each is
a pure function of the response map (the Python versions read the same data
from ambient session state); it returns the list of localized error
messages in the order the source appends them. -/

def validate_r2 (lang : String) (rs : RespMap) : List String :=
  let organisation := strField rs "organisation"
  let pays := strField rs "pays"
  let pays_autre := strField rs "pays_autre"
  let type_acteur := strField rs "type_acteur"
  let fonction := strField rs "fonction"
  let fonction_autre := strField rs "fonction_autre"
  let email := strField rs "email"
  (if organisation = "" then
    [t lang "Organisation : champ obligatoire." "Organization: required field." Option.none Option.none]
   else if organisation.length < 12 then
    [t lang "Organisation : indiquez le libellé complet (au moins 12 caractères) et non le sigle." "Organization: please provide the full name (at least 12 characters), not only an acronym." Option.none Option.none]
   else []) ++
  (if pays = "" then
    [t lang "Pays de résidence : champ obligatoire." "Country of Residence: required field." Option.none Option.none]
   else if (pays = "OTHER" ∨ pays = "__OTHER__") ∧ pays_autre = "" then
    [t lang "Autre pays (à préciser) : champ obligatoire." "Other country (please specify): required field." Option.none Option.none]
   else []) ++
  (if type_acteur = "" then
    [t lang "Type d’acteur : champ obligatoire." "Stakeholder type: required field." Option.none Option.none]
   else []) ++
  (if fonction = "" then
    [t lang "Fonction : champ obligatoire." "Role/Function: required field." Option.none Option.none]
   else []) ++
  (if is_other_value (Val.str fonction) = true ∧ fonction_autre = "" then
    [t lang "Fonction (Autre) : précisez." "Role (Other): please specify." Option.none Option.none]
   else []) ++
  (if email = "" then
    [t lang "Email : champ obligatoire." "Email: required field." Option.none Option.none]
   else if EMAIL_RE_match email = false then
    [t lang "Email : format invalide." "Email: invalid format." Option.none Option.none]
   else [])

def validate_r3 (lang : String) (rs : RespMap) : List String :=
  let scope := strField rs "scope"
  if scope = "" then
    [t lang "Rubrique 3 : veuillez sélectionner une portée." "Section 3: please select a scope." Option.none Option.none]
  else
    (if strField rs "snds_status" = "" then
      [t lang "Rubrique 3 : veuillez indiquer le statut de la SNDS / plan national statistique." "Section 3: please indicate the status of the NSDS / national statistical plan." Option.none Option.none]
     else []) ++
    (if scope = "Other" ∧ strField rs "scope_other" = "" then
      [t lang "Rubrique 3 : précisez l’option « Autre »." "Section 3: please specify the \"Other\" option." Option.none Option.none]
     else [])

/-- Raw `top5_domains` value as the source fetches it (`resp_get` with a
`[]` default and, in `validate_r5`, no isinstance coercion). -/
def top5ValOf (rs : RespMap) : Val :=
  respGetD rs "top5_domains" (Val.list [])

/-- The `preselected_domains` list after the `isinstance(list)` coercion. -/
def preselectedOf (rs : RespMap) : List Val :=
  valAsList (respGetD rs "preselected_domains" (Val.list []))

def validate_r4 (lang : String) (rs : RespMap) : List String :=
  let pre := preselectedOf rs
  let top5 := valAsList (top5ValOf rs)
  (if pre.length < 5 ∨ pre.length > 10 then
    [t lang "Rubrique 4 : pré-sélectionnez entre 5 et 10 domaines." "Section 4: pre-select 5 to 10 domains." Option.none Option.none]
   else []) ++
  (if pyNoDup pre = false then
    [t lang "Rubrique 4 : la pré-sélection contient des doublons." "Section 4: duplicates found in pre-selection." Option.none Option.none]
   else []) ++
  (if top5.length ≠ 5 then
    [t lang "Rubrique 4 : le TOP 5 doit contenir exactement 5 domaines." "Section 4: TOP 5 must contain exactly 5 domains." Option.none Option.none]
   else
    (if top5.dedup.length ≠ 5 then
      [t lang "Rubrique 4 : le TOP 5 contient des doublons." "Section 4: TOP 5 contains duplicates." Option.none Option.none]
     else []) ++
    (if (top5.filter (fun d => !(decide (d ∈ pre)))).isEmpty = false then
      [t lang "Rubrique 4 : chaque domaine du TOP 5 doit provenir de la pré-sélection." "Section 4: TOP 5 must be selected from pre-selection." Option.none Option.none]
     else []))

/-- Python iteration `for d in top5` over a stored value.  Lists iterate
their elements, strings their characters, dicts their keys; `int`/`None`
raise `TypeError` in Python and are unreachable here (the field is produced
by a multiselect widget as a list), modelled as the empty iteration. -/
def pyIter : Val → List Val
  | Val.list xs => xs
  | Val.str s => s.data.map (fun c => Val.str (String.mk [c]))
  | Val.dict kvs => kvs.map (fun p => Val.str p.1)
  | _ => []

/-- Python `dict.get(d, default)` where the keys are strings and `d` is an
arbitrary stored value: a non-string key never matches. -/
def dictGetVal (kvs : List (String × Val)) (d : Val) (dflt : Val) : Val :=
  match d with
  | Val.str s => alistGetD kvs s dflt
  | _ => dflt

/-- The `selected_by_domain` mapping after the `isinstance(dict)` coercion. -/
def selected_by_domainOf (rs : RespMap) : List (String × Val) :=
  valAsDict (respGetD rs "selected_by_domain" (Val.dict []))

/-- Lookup `selected_by_domain.get(d, [])` plus the `isinstance(list)` coercion. -/
def statsFor (rs : RespMap) (d : Val) : List Val :=
  valAsList (dictGetVal (selected_by_domainOf rs) d (Val.list []))

/-- The flattened `all_stats` accumulator of `validate_r5`. -/
def allStatsOf (rs : RespMap) : List Val :=
  (pyIter (top5ValOf rs)).flatMap (statsFor rs)

/-- The `scoring` mapping after the `isinstance(dict)` coercion. -/
def scoringOf (rs : RespMap) : List (String × Val) :=
  valAsDict (respGetD rs "scoring" (Val.dict []))

/-- Python `s in scoring` for an arbitrary stored value against the
string-keyed scoring dict. -/
def scoreKeyPresent (scoring : List (String × Val)) (s : Val) : Bool :=
  match s with
  | Val.str k => (alistGet scoring k).isSome
  | _ => false

/-- Row fetch `scoring.get(s, ...) or ...` with an empty-dict default (see `valAsDict`). -/
def scRowOf (scoring : List (String × Val)) (s : Val) : List (String × Val) :=
  valAsDict (dictGetVal scoring s (Val.dict []))

def critLabel (lang k : String) : String :=
  if k == "demand" then t lang "demande" "demand" Option.none Option.none
  else if k == "availability" then t lang "disponibilité" "availability" Option.none Option.none
  else if k == "feasibility" then t lang "faisabilité" "feasibility" Option.none Option.none
  else k

/-- Criterion fetch with the legacy alias:
`sc_row.get("availability", sc_row.get("gap", None))` for `availability`,
`sc_row.get(k, None)` otherwise. -/
def critRaw (row : List (String × Val)) (k : String) : Val :=
  if k == "availability" then
    match alistGet row "availability" with
    | Option.some v => v
    | Option.none => alistGetD row "gap" Val.none
  else alistGetD row k Val.none

/-- Error messages for one criterion of one indicator in `validate_r5`. -/
def critErrs (lang : String) (row : List (String × Val)) (s : Val) (k : String) : List String :=
  let k_lbl := critLabel lang k
  let v_raw := critRaw row k
  if v_raw = Val.none ∨ pyTrim (pyStr v_raw) = "" then
    [t lang ("Rubrique 5 : la note ’" ++ k_lbl ++ "’ manque pour " ++ pyStr s ++ ".")
      ("Section 5: missing score ’" ++ k_lbl ++ "’ for " ++ pyStr s ++ ".") Option.none Option.none]
  else
    match pyToInt v_raw with
    | Option.some v =>
      if v < 0 ∨ v > 3 then
        [t lang ("Rubrique 5 : note invalide pour " ++ pyStr s ++ " (" ++ k_lbl ++ ").")
          ("Section 5: invalid score for " ++ pyStr s ++ " (" ++ k_lbl ++ ").") Option.none Option.none]
      else []
    | Option.none =>
      [t lang ("Rubrique 5 : note invalide pour " ++ pyStr s ++ " (" ++ k_lbl ++ ").")
        ("Section 5: invalid score for " ++ pyStr s ++ " (" ++ k_lbl ++ ").") Option.none Option.none]

/-- Scoring errors for one flattened indicator in `validate_r5`. -/
def perStatErrs (lang : String) (scoring : List (String × Val)) (s : Val) : List String :=
  if scoreKeyPresent scoring s = false then
    [t lang ("Rubrique 5 : vous devez noter la statistique " ++ pyStr s ++ ".")
      ("Section 5: you must score indicator " ++ pyStr s ++ ".") Option.none Option.none]
  else
    ["demand", "availability", "feasibility"].flatMap (critErrs lang (scRowOf scoring s) s)

def validate_r5 (lang : String) (rs : RespMap) : List String :=
  let all_stats := allStatsOf rs
  ((pyIter (top5ValOf rs)).flatMap (fun d =>
    (if (statsFor rs d).length < 1 then
      [t lang ("Rubrique 5 : choisissez au moins 1 statistique pour " ++ pyStr d ++ ".")
        ("Section 5: select at least 1 indicator for " ++ pyStr d ++ ".") Option.none Option.none]
     else []) ++
    (if (statsFor rs d).length > 3 then
      [t lang ("Rubrique 5 : maximum 3 statistiques pour " ++ pyStr d ++ ".")
        ("Section 5: maximum 3 indicators for " ++ pyStr d ++ ".") Option.none Option.none]
     else []))) ++
  (if all_stats.length < 5 ∨ all_stats.length > 15 then
    [t lang "Rubrique 5 : le total des statistiques doit être entre 5 et 15." "Section 5: total number of indicators must be between 5 and 15." Option.none Option.none]
   else []) ++
  (if pyNoDup all_stats = false then
    [t lang "Rubrique 5 : une même statistique ne doit pas être sélectionnée plusieurs fois." "Section 5: the same indicator must not be selected more than once." Option.none Option.none]
   else []) ++
  all_stats.flatMap (perStatErrs lang (scoringOf rs))

def validate_r6 (lang : String) (rs : RespMap) : List String :=
  match respGetD rs "gender_table" (Val.dict []) with
  | Val.dict kvs =>
    if kvs.isEmpty then
      [t lang "Rubrique 6 : veuillez renseigner le tableau." "Section 6: please complete the table." Option.none Option.none]
    else
      kvs.flatMap (fun p =>
        if valTruthy p.2 = false then
          [t lang ("Rubrique 6 : ligne non renseignée : " ++ p.1 ++ ".") ("Section 6: missing answer for: " ++ p.1 ++ ".") Option.none Option.none]
        else [])
  | _ => [t lang "Rubrique 6 : veuillez renseigner le tableau." "Section 6: please complete the table." Option.none Option.none]

def validate_r7 (lang : String) (rs : RespMap) : List String :=
  let p1 := strField rs "gender_priority_1"
  let p2 := strField rs "gender_priority_2"
  let p3 := strField rs "gender_priority_3"
  let other := strField rs "gender_priority_other"
  let chosen := [p1, p2, p3].filter (fun x => x ≠ "")
  (if p1 = "" then
    [t lang "Rubrique 7 : veuillez sélectionner au moins une priorité genre (Priorité 1)." "Section 7: please select at least one gender priority (Priority 1)." Option.none Option.none]
   else []) ++
  (if p3 ≠ "" ∧ p2 = "" then
    [t lang "Rubrique 7 : veuillez renseigner la Priorité 2 avant la Priorité 3." "Section 7: please fill Priority 2 before Priority 3." Option.none Option.none]
   else []) ++
  (if chosen.dedup.length ≠ chosen.length then
    [t lang "Rubrique 7 : les priorités genre doivent être différentes (pas de doublons)." "Section 7: gender priorities must be distinct (no duplicates)." Option.none Option.none]
   else []) ++
  (if decide ("OTHER" ∈ chosen) = true ∧ other = "" then
    [t lang "Rubrique 7 : précisez l’option « Autre »." "Section 7: please specify the ’Other’ option." Option.none Option.none]
   else [])

def validate_r8 (lang : String) (rs : RespMap) : List String :=
  match respGetD rs "capacity_table" (Val.dict []) with
  | Val.dict kvs =>
    if kvs.isEmpty then
      [t lang "Rubrique 8 : veuillez renseigner le tableau." "Section 8: please complete the table." Option.none Option.none]
    else
      kvs.flatMap (fun p =>
        if valTruthy p.2 = false then
          [t lang ("Rubrique 8 : ligne non renseignée : " ++ p.1 ++ ".") ("Section 8: missing answer for: " ++ p.1 ++ ".") Option.none Option.none]
        else [])
  | _ => [t lang "Rubrique 8 : veuillez renseigner le tableau." "Section 8: please complete the table." Option.none Option.none]

def validate_r9 (lang : String) (rs : RespMap) : List String :=
  let sel := respGetD rs "quality_expectations" (Val.list [])
  match sel with
  | Val.list xs =>
    if (xs.filter (fun x => pyTrim (pyStr x) ≠ "")).length = 0 then
      [t lang "Rubrique 9 : veuillez sélectionner au moins une option." "Section 9: please select at least one option." Option.none Option.none]
    else if has_other_option sel = true ∧ strField rs "quality_other" = "" then
      [t lang "Rubrique 9 : précisez l’option « Autre »." "Section 9: please specify the \"Other\" option." Option.none Option.none]
    else []
  | _ => [t lang "Rubrique 9 : veuillez sélectionner au moins une option." "Section 9: please select at least one option." Option.none Option.none]

def validate_r10 (lang : String) (rs : RespMap) : List String :=
  let sel := respGetD rs "dissemination_channels" (Val.list [])
  match sel with
  | Val.list xs =>
    if (xs.filter (fun x => pyTrim (pyStr x) ≠ "")).length = 0 then
      [t lang "Rubrique 10 : veuillez sélectionner au moins une option." "Section 10: please select at least one option." Option.none Option.none]
    else if has_other_option sel = true ∧ strField rs "dissemination_other" = "" then
      [t lang "Rubrique 10 : précisez l’option « Autre »." "Section 10: please specify the \"Other\" option." Option.none Option.none]
    else []
  | _ => [t lang "Rubrique 10 : veuillez sélectionner au moins une option." "Section 10: please select at least one option." Option.none Option.none]

def validate_r11 (lang : String) (rs : RespMap) : List String :=
  let sel := valAsList (respGetD rs "data_sources" (Val.list []))
  let sel_clean := (sel.map (fun x => pyTrim (pyStr x))).filter (fun s => s ≠ "")
  if sel_clean.length < 2 then
    [t lang "Rubrique 11 : sélectionnez au moins 2 sources." "Section 11: please select at least 2 sources." Option.none Option.none]
  else
    (if sel_clean.length > 4 then
      [t lang "Rubrique 11 : sélectionnez au maximum 4 sources." "Section 11: please select at most 4 sources." Option.none Option.none]
     else []) ++
    (if sel_clean.any (fun s => is_other_value (Val.str s)) = true ∧ strField rs "data_sources_other" = "" then
      [t lang "Rubrique 11 : précisez l’option « Autres »." "Section 11: please specify the ’Other’ option." Option.none Option.none]
     else [])

/-- Validator `validate_r12` also reads the session-level wizard sub-step
`st.session_state["r12_substep"]` (an `int`, 0..3), passed explicitly. -/
def validate_r12 (lang : String) (rs : RespMap) (r12Substep : Int) : List String :=
  (if r12Substep < 3 then
    [t lang "Rubrique 12 : veuillez traiter les questions ouvertes une à une (bouton « Question suivante ») jusqu’à la Confirmation." "Section 12: please go through the open questions one by one (use the “Next question” button) until Confirmation." Option.none Option.none]
   else []) ++
  (let cc := strField rs "consulted_colleagues"
   if cc ≠ "YES" ∧ cc ≠ "NO" then
    [t lang "Rubrique 12 : veuillez indiquer si vous avez consulté d’autres collègues (Oui/Non)." "Section 12: please indicate whether you consulted other colleagues (Yes/No)." Option.none Option.none]
   else [])

/-- Model of `validate_all(lang)` (source lines 4187-4200): it concatenates
the validators of sections 2, 3, 4, 5, 6, 8, 9, 10, 11 and 12, in that
order, exactly as the source's sequence of `errs.extend` calls. -/
def validate_all (lang : String) (rs : RespMap) (r12Substep : Int) : List String :=
  validate_r2 lang rs ++ validate_r3 lang rs ++ validate_r4 lang rs ++
  validate_r5 lang rs ++ validate_r6 lang rs ++ validate_r8 lang rs ++
  validate_r9 lang rs ++ validate_r10 lang rs ++ validate_r11 lang rs ++
  validate_r12 lang rs r12Substep

/-- Constant `SCORING_VERSION = 3` (source line 2211). -/
def SCORING_VERSION : Int := 3

/-- Model of `normalize_availability(v_raw, scoring_version)` (source lines
2953-2977). -/
def normalize_availability (v_raw scoring_version : Val) : Int :=
  match pyToInt v_raw with
  | Option.none => 0
  | Option.some iv =>
    if iv = 0 then 0
    else
      let ver := (pyToInt scoring_version).getD 0
      if ver ≥ SCORING_VERSION then iv
      else if iv = 1 ∨ iv = 2 ∨ iv = 3 then 4 - iv
      else iv

/-- The raw availability extraction used by the aggregation layer (source
line 6017): `sc.get("availability", sc.get("gap", 0))`. -/
def availRawOf (sc : List (String × Val)) : Val :=
  match alistGet sc "availability" with
  | Option.some v => v
  | Option.none => alistGetD sc "gap" (Val.int 0)

example : normalize_availability (Val.int 1) (Val.int 0) = 3 := by decide
example : normalize_availability (Val.int 1) (Val.int 3) = 1 := by decide
example : normalize_availability (Val.str "x") (Val.int 3) = 0 := by decide
example : availRawOf [("gap", Val.int 1)] = Val.int 1 := by decide

/-! Persistence layer.  The SQLite file is modelled as an explicit record:
`fileExists` mirrors `os.path.exists(DB_PATH)`, and each table is a list of
rows in insertion order.  `db_init` runs `CREATE TABLE IF NOT EXISTS ...`,
which creates the file; `INSERT OR REPLACE` on a primary key deletes any
row with the same key and appends the new row.  JSON payloads are stored as
the already-parsed value: `json.dumps`/`json.loads` round-trip the stored
string/int/list/dict/None shapes unchanged. -/

structure SubRow where
  submission_id : String
  submitted_at_utc : String
  lang : String
  email : String
  payload : Val
  deriving DecidableEq, Repr

structure DraftRow where
  draft_id : String
  updated_at_utc : String
  email : String
  payload : Val
  deriving DecidableEq, Repr

structure Db where
  fileExists : Bool
  submissions : List SubRow
  drafts : List DraftRow
  config : List (String × String)
  deriving DecidableEq, Repr

def db_init (db : Db) : Db :=
  { db with fileExists := true }

/-- Model of `db_email_exists(email)` (source lines 3704-3714): lowercased,
trimmed lookup against `lower(email)` of the stored rows; `False` when the
input is blank or the database file does not exist. -/
def db_email_exists (db : Db) (email : String) : Bool :=
  let e := pyLower (pyTrim email)
  if e = "" ∨ db.fileExists = false then false
  else ((db_init db).submissions.any (fun r => pyLower r.email == e))

/-- Model of `db_save_submission(...)` (source lines 3717-3726): upsert
keyed by `submission_id`, storing the trimmed, lowercased email. -/
def db_save_submission (db : Db) (sid lang email now : String) (payload : Val) : Db :=
  let db := db_init db
  { db with submissions :=
      db.submissions.filter (fun r => r.submission_id ≠ sid) ++
      [⟨sid, now, lang, pyLower (pyTrim email), payload⟩] }

/-- Model of `db_save_draft(...)` (source lines 3730-3746). -/
def db_save_draft (db : Db) (draft_id email now : String) (payload : Val) : Db :=
  let did := pyTrim draft_id
  let em := pyLower (pyTrim email)
  if did = "" ∨ em = "" then db
  else
    let db := db_init db
    { db with drafts := db.drafts.filter (fun r => r.draft_id ≠ did) ++ [⟨did, now, em, payload⟩] }

/-- Model of `db_load_draft(draft_id)` (source lines 3749-3764). -/
def db_load_draft (db : Db) (draft_id : String) : Option Val :=
  let did := pyTrim draft_id
  if did = "" ∨ db.fileExists = false then Option.none
  else
    match (db_init db).drafts.find? (fun r => r.draft_id == did) with
    | Option.some r => Option.some r.payload
    | Option.none => Option.none

/-- Model of `db_get_config(k)` (source lines 3547-3554). -/
def db_get_config (db : Db) (k : String) : Option String :=
  match db.config.find? (fun p => p.1 == k) with
  | Option.some p => Option.some p.2
  | Option.none => Option.none

/-- Model of `db_set_config(k, v)` (source lines 3557-3566): upsert by key. -/
def db_set_config (db : Db) (k v : String) : Db :=
  let db := db_init db
  { db with config := db.config.filter (fun p => p.1 ≠ k) ++ [(k, v)] }

/-- Session state (`st.session_state`), restricted to the fields the
questionnaire flow reads and writes (`init_session`, source line 2906). -/
structure SessionState where
  responses : RespMap
  lang : String
  navIdx : Int
  draftId : Option String
  draftRestored : Bool
  draftExists : Bool
  lastDraftSaveTs : Int
  submittedOnce : Bool
  r12Substep : Int
  submissionId : Option String
  deriving DecidableEq, Repr

/-- Result of `autosave_draft` together with the session/database effects. -/
structure AutosaveResult where
  ok : Bool
  msg : String
  st : SessionState
  db : Db
  deriving DecidableEq, Repr

/-- Model of `autosave_draft(force)` (source lines 2998-3018).  Timestamps
(`time.time()`) are passed explicitly; the 2-second rate limit only matters
for `force=False`.  The `db_save_draft` exception branch does not arise in
the pure model. -/
def autosave_draft (force : Bool) (st : SessionState) (db : Db) (nowTs : Int) (nowIso : String) : AutosaveResult :=
  let email := strField st.responses "email"
  match st.draftId with
  | Option.none => ⟨false, "no_draft_id_or_email", st, db⟩
  | Option.some did =>
    if did = "" ∨ email = "" then ⟨false, "no_draft_id_or_email", st, db⟩
    else if force = false ∧ nowTs - st.lastDraftSaveTs < 2 then ⟨true, "skipped_rate_limit", st, db⟩
    else
      let payload := Val.dict [("responses", Val.dict st.responses),
                               ("nav_idx", Val.int st.navIdx),
                               ("lang", Val.str st.lang)]
      ⟨true, "saved", { st with lastDraftSaveTs := nowTs }, db_save_draft db did email nowIso payload⟩

/-- The `rid` extraction `if "rid" in qp and qp["rid"]: rid = qp["rid"][0]`
(empty string standing for "no rid"). -/
def qpFirst (qp : List (String × List String)) (k : String) : String :=
  match qp.find? (fun p => p.1 == k) with
  | Option.some (_, v :: _) => v
  | _ => ""

/-- The admin-mode test
`"admin" in qp and qp["admin"] and qp["admin"][0] in ["1", "true", "yes"]`. -/
def qpIsAdmin (qp : List (String × List String)) : Bool :=
  match qp.find? (fun p => p.1 == "admin") with
  | Option.some (_, v :: _) => v == "1" || v == "true" || v == "yes"
  | _ => false

/-- Model of `maybe_restore_draft()` (source lines 3021-3064), with the URL
query parameters passed explicitly (`get_query_params()` returns a map from
name to list of values). -/
def maybe_restore_draft (st : SessionState) (db : Db) (qp : List (String × List String)) : SessionState :=
  if st.draftRestored then st
  else
    let st := { st with draftRestored := true }
    let rid := qpFirst qp "rid"
    if rid = "" then st
    else
      if qpIsAdmin qp = true then st
      else
        let payload? := db_load_draft db rid
        let st := { st with draftExists := payload?.isSome }
        if st.responses ≠ [] then { st with draftId := Option.some rid }
        else
          match payload? with
          | Option.none => { st with draftId := Option.some rid }
          | Option.some payload =>
            let st := match alistGetD (valAsDict payload) "responses" (Val.dict []) with
                      | Val.dict rs => { st with responses := rs }
                      | _ => st
            let st := { st with navIdx := (pyToInt (alistGetD (valAsDict payload) "nav_idx" (Val.int 0))).getD 0 }
            let st := match alistGet (valAsDict payload) "lang" with
                      | Option.some (Val.str l) => if l ∈ LANG_OPTIONS then { st with lang := l } else st
                      | _ => st
            { st with draftId := Option.some rid }

/-- The payload built by the SEND handler (source lines 5635-5638):
`responses.copy()` plus `submission_id`, `submitted_at_utc` and
`scoring_version`. -/
def buildPayload (rs : RespMap) (sid now : String) : Val :=
  Val.dict (dictSet (dictSet (dictSet rs "submission_id" (Val.str sid))
    "submitted_at_utc" (Val.str now)) "scoring_version" (Val.int SCORING_VERSION))

inductive SendOutcome : Type where
  | blockedErrors
  | notClicked
  | saved
  | saveFailed
  deriving DecidableEq, Repr

structure SendResult where
  db : Db
  st : SessionState
  writeAttempted : Bool
  backup : Option Val
  outcome : SendOutcome
  deriving DecidableEq, Repr

/-- The `disable_submit` computation of the SEND handler (source lines
5597-5631): session flag plus the case-insensitive email pre-check (the
pre-check only runs when the trimmed email is nonempty; the caught
`db_email_exists` exception branch does not arise in the pure model). -/
def sendDisabled (st : SessionState) (db : Db) : Bool :=
  let email := strField st.responses "email"
  let alreadyInDb := if email ≠ "" then db_email_exists db email else false
  alreadyInDb || st.submittedOnce

/-- Model of `rubric_send(lang, df_long)` (source lines 5573-5687).
`clicked` is whether the user pressed the submit button this render (the
button can only fire when not disabled); `dbWriteOk` is whether the
`db_save_submission` call succeeds or raises; `sid`/`nowIso` stand for the
freshly minted `uuid4` and the current timestamp.  On a write failure the
handler shows the JSON payload as a download/backup and returns without
touching the session; on success it sets `submitted_once` (and also offers
a JSON copy). -/
def rubric_send (lang : String) (st : SessionState) (db : Db) (clicked dbWriteOk : Bool) (sid nowIso : String) : SendResult :=
  if validate_all lang st.responses st.r12Substep ≠ [] then
    ⟨db, st, false, Option.none, SendOutcome.blockedErrors⟩
  else
    let email := strField st.responses "email"
    if clicked = true ∧ sendDisabled st db = false then
      let payload := buildPayload st.responses sid nowIso
      if dbWriteOk then
        ⟨db_save_submission db sid lang email nowIso payload,
         { st with submittedOnce := true, submissionId := Option.some sid },
         true, Option.some payload, SendOutcome.saved⟩
      else
        ⟨db, st, true, Option.some payload, SendOutcome.saveFailed⟩
    else
      ⟨db, st, false, Option.none, SendOutcome.notClicked⟩

/-! Admin password handling (source lines 3545-3702).  PBKDF2-SHA256 is an
external primitive; it is modelled as an explicit function parameter
`pbkdf2 : password → salt hex → iterations → digest hex`, keyed on the hex
encoding of the salt bytes (hex decoding is injective on valid hex, so no
information is lost).  `hmac.compare_digest` on the hex strings is string
equality. -/

def PBKDF2_ITERS : Nat := 200000

def pyOrEmpty (s : String) : String :=
  if s = "" then "" else s

/-- Model of `_safe_eq(a, b)` (source line 3583). -/
def safeEq (a b : String) : Bool :=
  pyOrEmpty a == pyOrEmpty b

/-- Valid input for `bytes.fromhex` (which raises otherwise): even length,
hex digits only. -/
def isHexStr (s : String) : Bool :=
  s.length % 2 == 0 && s.data.all (fun c => c.isDigit || ('a' ≤ c && c ≤ 'f') || ('A' ≤ c && c ≤ 'F'))

/-- The `iterations = int(it) if it else PBKDF2_ITERS` step of
`verify_admin_password`, returning `Option.none` when `int(it)` raises (or
`pbkdf2_hmac` would reject the iteration count). -/
def itersOf : Option String → Option Nat
  | Option.none => Option.some PBKDF2_ITERS
  | Option.some s =>
    if s = "" then Option.some PBKDF2_ITERS
    else
      match pyStrToInt s with
      | Option.some n => if n ≥ 1 then Option.some n.toNat else Option.none
      | Option.none => Option.none

/-- The secrets/env fallback of `verify_admin_password`:
`_get_secret_or_env("ADMIN_PASSWORD")` is modelled as its resolved result
(`Option.none` when neither a secret nor an env var is set, or it is
empty). -/
def verifyFallback (secretEnv : Option String) (pw : String) : Bool :=
  match secretEnv with
  | Option.some expected => if expected ≠ "" then safeEq pw expected else false
  | Option.none => false

/-- Model of `verify_admin_password(pw)` (source lines 3658-3675): the
database hash is checked first; any exception inside that branch yields
`False`; without a stored hash the external secret is compared. -/
def verify_admin_password (pbkdf2 : String → String → Nat → String) (db : Db)
    (secretEnv : Option String) (pw : String) : Bool :=
  let pw := pyOrEmpty pw
  match db_get_config db "ADMIN_PASSWORD_HASH", db_get_config db "ADMIN_PASSWORD_SALT" with
  | Option.some h, Option.some s =>
    if h = "" ∨ s = "" then verifyFallback secretEnv pw
    else if isHexStr s = false then false
    else
      match itersOf (db_get_config db "ADMIN_PASSWORD_ITERS") with
      | Option.some iters => safeEq (pbkdf2 pw s iters) h
      | Option.none => false
  | _, _ => verifyFallback secretEnv pw

/-- Model of `set_admin_password(new_pw)` (source lines 3686-3695): strips
the password, raises (`Option.none`) when blank, otherwise stores a fresh
salt, the PBKDF2 hash of the stripped password and the iteration count.
`saltHex` stands for `secrets.token_bytes(16).hex()`. -/
def set_admin_password (pbkdf2 : String → String → Nat → String) (saltHex : String)
    (new_pw : String) (db : Db) : Option Db :=
  let p := pyTrim new_pw
  if p = "" then Option.none
  else
    let db := db_set_config db "ADMIN_PASSWORD_HASH" (pbkdf2 p saltHex PBKDF2_ITERS)
    let db := db_set_config db "ADMIN_PASSWORD_SALT" saltHex
    Option.some (db_set_config db "ADMIN_PASSWORD_ITERS" "200000")

/-! Generic emptiness lemmas used to relate a validator's error list to the
condition it checks. -/

theorem if_msg_eq_nil {c : Prop} [Decidable c] (m : String) :
    ((if c then [m] else []) = []) ↔ ¬ c := by
  split
  · simp [*]
  · simp [*]

theorem pyNoDup_iff (xs : List Val) : pyNoDup xs = true ↔ xs.Nodup := by
  unfold pyNoDup
  rw [beq_iff_eq]
  constructor
  · intro hl
    have hx : xs.dedup = xs := List.Sublist.eq_of_length (List.dedup_sublist xs) hl
    rw [← hx]
    exact List.nodup_dedup xs
  · intro h
    rw [List.dedup_eq_self.mpr h]

/-- C6: for every stored availability score, a scoring version below 3
inverts 1 and 3 (leaving 0 and 2 unchanged), while version 3 and above
keeps a value in [0,3] unchanged; in particular a legacy `{"gap": 1}` score
normalizes to 3 under an old version and to 1 under the current one. -/
theorem normalize_availability_version_spec (sv : Int) :
    (sv < 3 →
      normalize_availability (Val.int 1) (Val.int sv) = 3 ∧
      normalize_availability (Val.int 2) (Val.int sv) = 2 ∧
      normalize_availability (Val.int 3) (Val.int sv) = 1 ∧
      normalize_availability (Val.int 0) (Val.int sv) = 0 ∧
      normalize_availability (availRawOf [("gap", Val.int 1)]) (Val.int sv) = 3) ∧
    (3 ≤ sv → ∀ v : Int, 0 ≤ v → v ≤ 3 →
      normalize_availability (Val.int v) (Val.int sv) = v ∧
      normalize_availability (availRawOf [("gap", Val.int 1)]) (Val.int sv) = 1) := by
  have hgap : availRawOf [("gap", Val.int 1)] = Val.int 1 := by decide
  constructor
  · intro h
    rw [hgap]
    refine ⟨?_, ?_, ?_, ?_, ?_⟩ <;>
      simp [normalize_availability, pyToInt, SCORING_VERSION] <;> omega
  · intro h v hv0 hv3
    rw [hgap]
    constructor
    · by_cases hz : v = 0
      · simp [normalize_availability, pyToInt, hz]
      · simp [normalize_availability, pyToInt, SCORING_VERSION, hz]
        intro hlt
        omega
    · simp [normalize_availability, pyToInt, SCORING_VERSION]
      omega

theorem normalize_availability_version_spec_witness :
    normalize_availability (Val.int 1) (Val.int 0) = 3 ∧
    normalize_availability (Val.int 1) (Val.int 3) = 1 :=
  ⟨((normalize_availability_version_spec 0).1 (by decide)).1,
   (((normalize_availability_version_spec 3).2 (by decide) 1 (by decide) (by decide))).1⟩

/-- C10: `normalize_availability` is total over arbitrary stored values:
an unconvertible score yields 0, an integer score 0 yields 0 whatever the
version, and an unconvertible scoring version behaves like version 0
(legacy, so the 1-to-3 inversion applies). -/
theorem normalize_availability_total_spec :
    (∀ v : Val, pyToInt v = Option.none → ∀ ver : Val, normalize_availability v ver = 0) ∧
    (∀ ver : Val, normalize_availability (Val.int 0) ver = 0) ∧
    (∀ v ver : Val, pyToInt ver = Option.none →
      normalize_availability v ver = normalize_availability v (Val.int 0)) := by
  refine ⟨?_, ?_, ?_⟩
  · intro v hv ver
    simp [normalize_availability, hv]
  · intro ver
    simp [normalize_availability, pyToInt]
  · intro v ver hver
    unfold normalize_availability
    rw [hver]
    rfl

theorem normalize_availability_total_spec_witness :
    normalize_availability (Val.str "abc") Val.none = 0 ∧
    normalize_availability (Val.int 1) (Val.str "legacy") = 3 := by
  constructor
  · exact normalize_availability_total_spec.1 (Val.str "abc") (by decide) Val.none
  · rw [normalize_availability_total_spec.2.2 (Val.int 1) (Val.str "legacy") (by decide)]
    decide

/-- A complete, submittable response map in which the gender-priority
section (rubric 7) was skipped entirely. -/
def c1Responses : RespMap :=
  [("organisation", Val.str "Continental Statistics Office"),
   ("pays", Val.str "KEN"),
   ("type_acteur", Val.str "NSO"),
   ("fonction", Val.str "Director"),
   ("email", Val.str "resp@example.org"),
   ("scope", Val.str "National"),
   ("snds_status", Val.str "Adopted"),
   ("preselected_domains", Val.list [Val.str "D01", Val.str "D02", Val.str "D03", Val.str "D04", Val.str "D05"]),
   ("top5_domains", Val.list [Val.str "D01", Val.str "D02", Val.str "D03", Val.str "D04", Val.str "D05"]),
   ("selected_by_domain", Val.dict
     [("D01", Val.list [Val.str "D01S01"]),
      ("D02", Val.list [Val.str "D02S01"]),
      ("D03", Val.list [Val.str "D03S01"]),
      ("D04", Val.list [Val.str "D04S01"]),
      ("D05", Val.list [Val.str "D05S01"])]),
   ("scoring", Val.dict
     [("D01S01", Val.dict [("demand", Val.int 3), ("availability", Val.int 1), ("feasibility", Val.int 2)]),
      ("D02S01", Val.dict [("demand", Val.int 2), ("availability", Val.int 2), ("feasibility", Val.int 2)]),
      ("D03S01", Val.dict [("demand", Val.int 1), ("availability", Val.int 3), ("feasibility", Val.int 0)]),
      ("D04S01", Val.dict [("demand", Val.int 0), ("availability", Val.int 0), ("feasibility", Val.int 3)]),
      ("D05S01", Val.dict [("demand", Val.int 3), ("availability", Val.int 3), ("feasibility", Val.int 3)])]),
   ("gender_table", Val.dict [("Access to resources", Val.str "P1")]),
   ("capacity_table", Val.dict [("Staff capacity", Val.str "HIGH")]),
   ("quality_expectations", Val.list [Val.str "Timeliness"]),
   ("dissemination_channels", Val.list [Val.str "Web portal"]),
   ("data_sources", Val.list [Val.str "Census", Val.str "Administrative data"]),
   ("consulted_colleagues", Val.str "YES")]

/-- C1: the submission gate `validate_all` omits `validate_r7`: on a
response map that completes every section except the gender priorities,
`validate_all` returns no error (so the submit button is enabled) while
`validate_r7` still returns a blocking error.  The sidebar jump-list can
reach the SEND step without passing rubric 7's forward-navigation check, so
this input is reachable. -/
theorem validate_all_omits_r7 :
    validate_all "en" c1Responses 3 = [] ∧ validate_r7 "en" c1Responses ≠ [] := by
  constructor
  · decide
  · decide

theorem dedup_length_eq_iff (xs : List Val) : xs.dedup.length = xs.length ↔ xs.Nodup := by
  constructor
  · intro hl
    have hx : xs.dedup = xs := List.Sublist.eq_of_length (List.dedup_sublist xs) hl
    rw [← hx]
    exact List.nodup_dedup xs
  · intro h
    rw [List.dedup_eq_self.mpr h]

/-- C2: `validate_r4` returns no error exactly when the pre-selection has
5 to 10 pairwise-distinct domains, the TOP 5 has exactly 5 pairwise
distinct domains, and every TOP 5 domain comes from the pre-selection. -/
theorem validate_r4_spec (lang : String) (rs : RespMap) :
    validate_r4 lang rs = [] ↔
      (5 ≤ (preselectedOf rs).length ∧ (preselectedOf rs).length ≤ 10 ∧
       (preselectedOf rs).Nodup ∧
       (valAsList (top5ValOf rs)).length = 5 ∧ (valAsList (top5ValOf rs)).Nodup ∧
       ∀ d ∈ valAsList (top5ValOf rs), d ∈ preselectedOf rs) := by
  simp only [validate_r4, List.append_eq_nil, if_msg_eq_nil]
  by_cases h5 : (valAsList (top5ValOf rs)).length = 5
  · simp only [h5, ne_eq, not_true_eq_false, if_false, List.append_eq_nil, if_msg_eq_nil,
      not_or, not_lt, Bool.not_eq_false, pyNoDup_iff, not_not, List.isEmpty_iff,
      List.filter_eq_nil_iff, Bool.not_eq_true', decide_eq_true_eq, not_false_eq_true,
      true_and, Bool.not_eq_true]
    rw [show ((valAsList (top5ValOf rs)).dedup.length = 5 ↔ (valAsList (top5ValOf rs)).Nodup) from by
      rw [← h5]; exact dedup_length_eq_iff _]
    tauto
  · simp only [h5]
    constructor
    · rintro ⟨-, h⟩
      rw [if_pos h5] at h
      cases h
    · rintro ⟨-, -, -, h, -⟩
      exact h.elim

/-- C4: with a submission already stored under the canonical (trimmed,
lowercased) email `e`, a SEND render whose session email differs from `e`
only by letter case finds it via the case-insensitive `db_email_exists`
pre-check, which disables the submit control: no database write is
attempted and the database is unchanged. -/
theorem rubric_send_blocks_duplicate_email
    (lang : String) (st : SessionState) (db : Db) (clicked dbWriteOk : Bool)
    (sid nowIso : String) (row : SubRow) (e e2 : String)
    (hrow : row ∈ db.submissions) (hre : row.email = e)
    (hcanon : pyLower e = e) (hne : e ≠ "")
    (hfile : db.fileExists = true)
    (hsess : alistGet st.responses "email" = Option.some (Val.str e2))
    (htrim : pyTrim e2 = e2) (hlow : pyLower e2 = e) :
    (rubric_send lang st db clicked dbWriteOk sid nowIso).writeAttempted = false ∧
    (rubric_send lang st db clicked dbWriteOk sid nowIso).db = db := by
  have hemail : strField st.responses "email" = e2 := by
    unfold strField
    rw [hsess]
    exact htrim
  have he2 : e2 ≠ "" := fun h => hne (by rw [← hlow, h]; rfl)
  have hexists : db_email_exists db e2 = true := by
    unfold db_email_exists
    rw [htrim, hlow]
    rw [if_neg (by simp [hne, hfile])]
    simp only [db_init]
    rw [List.any_eq_true]
    refine ⟨row, hrow, ?_⟩
    rw [hre, hcanon]
    exact beq_self_eq_true e
  have hdis : sendDisabled st db = true := by
    simp only [sendDisabled, hemail]
    rw [if_pos he2, hexists]
    rfl
  by_cases hv : validate_all lang st.responses st.r12Substep = []
  · simp only [rubric_send, hdis]
    simp [hv]
  · simp only [rubric_send, hdis]
    simp [hv]

def c4Row : SubRow :=
  ⟨"s1", "2024-01-01T00:00:00Z", "en", "a@b.com", Val.dict []⟩

def c4Db : Db :=
  ⟨true, [c4Row], [], []⟩

def c4State : SessionState :=
  ⟨[("email", Val.str "A@B.com")], "en", 12, Option.none, true, false, 0, false, 3, Option.none⟩

theorem rubric_send_blocks_duplicate_email_witness :
    (rubric_send "en" c4State c4Db true true "s2" "ts2").writeAttempted = false ∧
    (rubric_send "en" c4State c4Db true true "s2" "ts2").db = c4Db :=
  rubric_send_blocks_duplicate_email "en" c4State c4Db true true "s2" "ts2"
    c4Row "a@b.com" "A@B.com" (by decide) (by decide) (by decide) (by decide)
    (by decide) (by decide) (by decide) (by decide)

/-- C5: when the database write raises during SEND, the handler keeps the
whole JSON payload as a client-side backup, leaves the session untouched
(in particular `submitted_once` stays false, so the session may retry) and
leaves the database unchanged. -/
theorem rubric_send_write_failure_spec
    (lang : String) (st : SessionState) (db : Db) (sid nowIso : String)
    (hval : validate_all lang st.responses st.r12Substep = [])
    (hdis : sendDisabled st db = false) :
    (rubric_send lang st db true false sid nowIso).st = st ∧
    (rubric_send lang st db true false sid nowIso).st.submittedOnce = false ∧
    (rubric_send lang st db true false sid nowIso).backup =
      Option.some (buildPayload st.responses sid nowIso) ∧
    (rubric_send lang st db true false sid nowIso).db = db ∧
    (rubric_send lang st db true false sid nowIso).outcome = SendOutcome.saveFailed := by
  have hso : st.submittedOnce = false := by
    unfold sendDisabled at hdis
    simpa using (Bool.or_eq_false_iff.mp hdis).2
  simp only [rubric_send, hdis]
  simp [hval, hso]

/-- A complete response map (all twelve sections answered). -/
def fullResponses : RespMap :=
  [("organisation", Val.str "Regional Statistical Training Centre"),
   ("pays", Val.str "SEN"),
   ("type_acteur", Val.str "NSO"),
   ("fonction", Val.str "Analyst"),
   ("email", Val.str "jane.doe@example.org"),
   ("scope", Val.str "National"),
   ("snds_status", Val.str "In progress"),
   ("preselected_domains", Val.list [Val.str "D01", Val.str "D02", Val.str "D03", Val.str "D04", Val.str "D05", Val.str "D06"]),
   ("top5_domains", Val.list [Val.str "D01", Val.str "D02", Val.str "D03", Val.str "D04", Val.str "D05"]),
   ("selected_by_domain", Val.dict
     [("D01", Val.list [Val.str "D01S01", Val.str "D01S02"]),
      ("D02", Val.list [Val.str "D02S11"]),
      ("D03", Val.list [Val.str "D03S18"]),
      ("D04", Val.list [Val.str "D04S27"]),
      ("D05", Val.list [Val.str "D05S35"])]),
   ("scoring", Val.dict
     [("D01S01", Val.dict [("demand", Val.int 3), ("availability", Val.int 1), ("feasibility", Val.int 2)]),
      ("D01S02", Val.dict [("demand", Val.int 3), ("availability", Val.int 1), ("feasibility", Val.int 2)]),
      ("D02S11", Val.dict [("demand", Val.int 3), ("gap", Val.int 1), ("feasibility", Val.int 2)]),
      ("D03S18", Val.dict [("demand", Val.int 3), ("availability", Val.int 1), ("feasibility", Val.int 2)]),
      ("D04S27", Val.dict [("demand", Val.int 3), ("availability", Val.int 1), ("feasibility", Val.int 2)]),
      ("D05S35", Val.dict [("demand", Val.int 3), ("availability", Val.str "2"), ("feasibility", Val.int 2)])]),
   ("gender_table", Val.dict [("Unpaid care work", Val.str "P1"), ("Employment", Val.str "P2")]),
   ("capacity_table", Val.dict [("Staff capacity", Val.str "HIGH")]),
   ("gender_priority_1", Val.str "GBV"),
   ("gender_priority_2", Val.str "TIME_USE"),
   ("quality_expectations", Val.list [Val.str "Timeliness"]),
   ("dissemination_channels", Val.list [Val.str "Web portal"]),
   ("data_sources", Val.list [Val.str "Census", Val.str "Administrative data"]),
   ("consulted_colleagues", Val.str "YES")]

def c5State : SessionState :=
  ⟨fullResponses, "en", 12, Option.none, true, false, 0, false, 3, Option.none⟩

def c5Db : Db :=
  ⟨false, [], [], []⟩

theorem rubric_send_write_failure_spec_witness :
    (rubric_send "en" c5State c5Db true false "sid1" "ts1").st = c5State ∧
    (rubric_send "en" c5State c5Db true false "sid1" "ts1").db = c5Db :=
  ⟨(rubric_send_write_failure_spec "en" c5State c5Db "sid1" "ts1" (by decide) (by decide)).1,
   (rubric_send_write_failure_spec "en" c5State c5Db "sid1" "ts1" (by decide) (by decide)).2.2.2.1⟩

/-- C9: `db_save_submission` stores the trimmed, lowercased email in the
row it writes; consequently, right after saving with email `email`,
`db_email_exists` succeeds for every query string with the same trimmed,
lowercased form (any letter-case or surrounding-whitespace variant). -/
theorem db_save_submission_email_canonical
    (db : Db) (sid lang email now : String) (payload : Val) (e2 : String)
    (h2 : pyLower (pyTrim e2) = pyLower (pyTrim email))
    (hne : pyLower (pyTrim email) ≠ "") :
    ((db_save_submission db sid lang email now payload).submissions.getLast?).map SubRow.email =
      Option.some (pyLower (pyTrim email)) ∧
    db_email_exists (db_save_submission db sid lang email now payload) e2 = true := by
  constructor
  · unfold db_save_submission
    simp [List.getLast?_concat]
  · unfold db_email_exists
    rw [h2]
    rw [if_neg (by simp [hne, db_save_submission, db_init])]
    simp only [db_init, db_save_submission]
    rw [List.any_eq_true]
    refine ⟨⟨sid, now, lang, pyLower (pyTrim email), payload⟩, ?_, ?_⟩
    · simp
    · rw [pyLower_idem]
      exact beq_self_eq_true _

theorem db_save_submission_email_canonical_witness :
    db_email_exists (db_save_submission ⟨false, [], [], []⟩ "s1" "en" " A@B.Com " "ts" (Val.dict [])) "a@b.com" = true :=
  (db_save_submission_email_canonical ⟨false, [], [], []⟩ "s1" "en" " A@B.Com " "ts" (Val.dict [])
    "a@b.com" (by decide) (by decide)).2

theorem pyTrim_strField (rs : RespMap) (k : String) :
    pyTrim (strField rs k) = strField rs k := by
  unfold strField
  cases h : alistGet rs k with
  | none => rfl
  | some v =>
    cases v with
    | str s => exact pyTrim_idem s
    | int n => rfl
    | list xs => rfl
    | dict kvs => rfl
    | none => rfl

/-- C7: a forced draft save (`autosave_draft(force=True)`) followed by
`maybe_restore_draft()` in a fresh session whose URL carries the same
`rid` reproduces the saved response map, navigation index and language. -/
theorem draft_save_restore_roundtrip
    (st st0 : SessionState) (db : Db) (did : String) (ts : Int) (iso : String)
    (hdid : st.draftId = Option.some did) (hdtrim : pyTrim did = did) (hdne : did ≠ "")
    (hemail : strField st.responses "email" ≠ "")
    (hlang : st.lang ∈ LANG_OPTIONS)
    (hfresh : st0.responses = []) (hnr : st0.draftRestored = false) :
    (autosave_draft true st db ts iso).ok = true ∧
    (autosave_draft true st db ts iso).msg = "saved" ∧
    (maybe_restore_draft st0 (autosave_draft true st db ts iso).db [("rid", [did])]).responses = st.responses ∧
    (maybe_restore_draft st0 (autosave_draft true st db ts iso).db [("rid", [did])]).navIdx = st.navIdx ∧
    (maybe_restore_draft st0 (autosave_draft true st db ts iso).db [("rid", [did])]).lang = st.lang := by
  set email := strField st.responses "email" with hem
  set payload := Val.dict [("responses", Val.dict st.responses),
                           ("nav_idx", Val.int st.navIdx),
                           ("lang", Val.str st.lang)] with hpl
  have hauto : autosave_draft true st db ts iso =
      ⟨true, "saved", { st with lastDraftSaveTs := ts }, db_save_draft db did email iso payload⟩ := by
    simp only [autosave_draft, hdid]
    rw [if_neg (by simp [hdne, hemail])]
    rw [if_neg (by simp)]
  have hemne : pyLower (pyTrim email) ≠ "" := by
    rw [pyTrim_strField]
    exact fun hc => hemail ((pyLower_eq_empty_iff _).mp hc)
  have hsave : db_save_draft db did email iso payload =
      { db_init db with drafts :=
          (db_init db).drafts.filter (fun r => r.draft_id ≠ did) ++
          [⟨did, iso, pyLower (pyTrim email), payload⟩] } := by
    simp only [db_save_draft, hdtrim]
    rw [if_neg (by simp [hdne, hemne])]
  have hload : db_load_draft (db_save_draft db did email iso payload) did = Option.some payload := by
    unfold db_load_draft
    rw [hsave, hdtrim]
    rw [if_neg (by simp [hdne, db_init])]
    simp only [db_init, List.find?_append]
    have hnone : ((db.drafts.filter (fun r => r.draft_id ≠ did)).find?
        (fun r => r.draft_id == did)) = Option.none := by
      rw [List.find?_eq_none]
      intro r hr
      have := (List.mem_filter.mp hr).2
      simp only [decide_eq_true_eq] at this
      simp [this]
    rw [hnone]
    simp
  rw [hauto]
  refine ⟨rfl, rfl, ?_⟩
  simp only [maybe_restore_draft, hnr]
  rw [if_neg (by simp)]
  have hrid : qpFirst [("rid", [did])] "rid" = did := by
    simp [qpFirst]
  rw [hrid]
  rw [if_neg hdne]
  have hadmin : qpIsAdmin [("rid", [did])] = false := by
    simp [qpIsAdmin]
  rw [hadmin]
  rw [if_neg (by simp)]
  rw [hload]
  simp only [Option.isSome_some]
  rw [if_neg (by simp [hfresh])]
  have hresp : alistGetD (valAsDict payload) "responses" (Val.dict []) = Val.dict st.responses := by
    simp [hpl, valAsDict, alistGetD, alistGet]
  have hnav : alistGetD (valAsDict payload) "nav_idx" (Val.int 0) = Val.int st.navIdx := by
    simp [hpl, valAsDict, alistGetD, alistGet]
  have hlangv : alistGet (valAsDict payload) "lang" = Option.some (Val.str st.lang) := by
    simp [hpl, valAsDict, alistGet]
  rw [hresp, hnav, hlangv]
  simp [hlang, pyToInt]

def c7State : SessionState :=
  ⟨fullResponses, "pt", 4, Option.some "rid-123", false, false, 0, false, 0, Option.none⟩

def c7Fresh : SessionState :=
  ⟨[], "fr", 0, Option.none, false, false, 0, false, 0, Option.none⟩

def c7Db : Db :=
  ⟨false, [], [], []⟩

theorem draft_save_restore_roundtrip_witness :
    (maybe_restore_draft c7Fresh (autosave_draft true c7State c7Db 100 "ts").db [("rid", ["rid-123"])]).responses = c7State.responses ∧
    (maybe_restore_draft c7Fresh (autosave_draft true c7State c7Db 100 "ts").db [("rid", ["rid-123"])]).navIdx = c7State.navIdx ∧
    (maybe_restore_draft c7Fresh (autosave_draft true c7State c7Db 100 "ts").db [("rid", ["rid-123"])]).lang = c7State.lang :=
  (draft_save_restore_roundtrip c7State c7Fresh c7Db "rid-123" 100 "ts"
    rfl (by decide) (by decide) (by decide) (by decide) rfl rfl).2.2

theorem string_append_hash_ne_empty (pw : String) : pw ++ "#" ≠ "" := by
  intro hc
  have hl := congrArg String.length hc
  simp [String.length_append] at hl
  exact absurd hl.2 (by decide)

theorem pyOrEmpty_eq (s : String) : pyOrEmpty s = s := by
  unfold pyOrEmpty
  split
  · simp_all
  · rfl

theorem find?_filter_ne (l : List (String × String)) (k k2 : String) (h : k2 ≠ k) :
    (l.filter (fun p => p.1 ≠ k)).find? (fun p => p.1 == k2) = l.find? (fun p => p.1 == k2) := by
  induction l with
  | nil => rfl
  | cons a tl ih =>
    rw [List.filter_cons]
    by_cases ha : a.1 = k
    · rw [if_neg (by simp [ha])]
      rw [ih]
      have hak2 : (a.1 == k2) = false := by
        rw [ha]
        exact beq_eq_false_iff_ne.mpr (fun hc => h hc.symm)
      simp only [List.find?_cons, hak2]
    · rw [if_pos (by simp [ha])]
      simp only [List.find?_cons]
      cases hak2 : (a.1 == k2) with
      | true => rfl
      | false => simpa using ih

theorem db_get_config_set_same (db : Db) (k v : String) :
    db_get_config (db_set_config db k v) k = Option.some v := by
  simp only [db_get_config, db_set_config, db_init, List.find?_append]
  rw [show (db.config.filter (fun p => p.1 ≠ k)).find? (fun p => p.1 == k) = Option.none from ?_]
  · simp
  · rw [List.find?_eq_none]
    intro x hx
    have := (List.mem_filter.mp hx).2
    simp_all

theorem db_get_config_set_other (db : Db) (k v k2 : String) (h : k2 ≠ k) :
    db_get_config (db_set_config db k v) k2 = db_get_config db k2 := by
  simp only [db_get_config, db_set_config, db_init, List.find?_append]
  rw [find?_filter_ne db.config k k2 h]
  cases hf : db.config.find? (fun p => p.1 == k2) with
  | some p => rfl
  | none =>
    have hkk2 : (k == k2) = false := beq_eq_false_iff_ne.mpr (fun hc => h hc.symm)
    simp [List.find?_cons, hkk2]

/-- C8 counterexample: the claim quantifies over every non-empty password
string, but `set_admin_password` hashes the *stripped* password while
`verify_admin_password` hashes the password verbatim, so a password with
surrounding whitespace is rejected after being set.  The statement below is
the claim with the PBKDF2 primitive as an explicit parameter (the only
property it uses is that distinct inputs give distinct digests, which the
exhibited function shares with PBKDF2-SHA256); it is refuted at the
password `" a"`. -/
theorem set_then_verify_claim_counterexample :
    ¬ (∀ (pbkdf2 : String → String → Nat → String) (db : Db) (secretEnv : Option String)
         (p saltHex : String) (db2 : Db),
        p ≠ "" → isHexStr saltHex = true → saltHex ≠ "" →
        (∀ pw it, pbkdf2 pw saltHex it ≠ "") →
        set_admin_password pbkdf2 saltHex p db = Option.some db2 →
        verify_admin_password pbkdf2 db2 secretEnv p = true ∧
        (∀ q, pbkdf2 q saltHex PBKDF2_ITERS ≠ pbkdf2 p saltHex PBKDF2_ITERS →
          verify_admin_password pbkdf2 db2 secretEnv q = false)) := by
  intro h
  have hset : set_admin_password (fun pw _ _ => pw ++ "#") "00" " a" ⟨false, [], [], []⟩ =
      Option.some ⟨true, [], [],
        [("ADMIN_PASSWORD_HASH", "a#"), ("ADMIN_PASSWORD_SALT", "00"), ("ADMIN_PASSWORD_ITERS", "200000")]⟩ := by
    decide
  have hv := (h (fun pw _ _ => pw ++ "#") ⟨false, [], [], []⟩ Option.none " a" "00"
      ⟨true, [], [], [("ADMIN_PASSWORD_HASH", "a#"), ("ADMIN_PASSWORD_SALT", "00"), ("ADMIN_PASSWORD_ITERS", "200000")]⟩
      (by decide) (by decide) (by decide)
      (fun pw it => string_append_hash_ne_empty pw) hset).1
  rw [show verify_admin_password (fun pw _ _ => pw ++ "#")
      ⟨true, [], [], [("ADMIN_PASSWORD_HASH", "a#"), ("ADMIN_PASSWORD_SALT", "00"), ("ADMIN_PASSWORD_ITERS", "200000")]⟩
      Option.none " a" = false from by decide] at hv
  cases hv

/-- C8 (amended): for every non-empty password without surrounding
whitespace, after `set_admin_password` stores a fresh salt and hash in
`app_config`, `verify_admin_password` accepts that password and rejects
every password whose digest differs, whatever external `ADMIN_PASSWORD`
secret or environment variable is configured (the database hash is checked
first). -/
theorem set_then_verify_spec
    (pbkdf2 : String → String → Nat → String) (db : Db) (secretEnv : Option String)
    (p saltHex : String) (db2 : Db)
    (hp : pyTrim p = p) (hne : p ≠ "")
    (hhex : isHexStr saltHex = true) (hsne : saltHex ≠ "")
    (hH : pbkdf2 p saltHex PBKDF2_ITERS ≠ "")
    (hset : set_admin_password pbkdf2 saltHex p db = Option.some db2) :
    verify_admin_password pbkdf2 db2 secretEnv p = true ∧
    (∀ q, pbkdf2 q saltHex PBKDF2_ITERS ≠ pbkdf2 p saltHex PBKDF2_ITERS →
      verify_admin_password pbkdf2 db2 secretEnv q = false) := by
  have hdb2 : db2 = db_set_config (db_set_config (db_set_config db
      "ADMIN_PASSWORD_HASH" (pbkdf2 p saltHex PBKDF2_ITERS)) "ADMIN_PASSWORD_SALT" saltHex)
      "ADMIN_PASSWORD_ITERS" "200000" := by
    simp only [set_admin_password, hp] at hset
    rw [if_neg hne] at hset
    exact (Option.some_inj.mp hset).symm
  have hgetI : db_get_config db2 "ADMIN_PASSWORD_ITERS" = Option.some "200000" := by
    rw [hdb2]
    exact db_get_config_set_same _ _ _
  have hgetS : db_get_config db2 "ADMIN_PASSWORD_SALT" = Option.some saltHex := by
    rw [hdb2]
    rw [db_get_config_set_other _ _ _ _ (by decide)]
    exact db_get_config_set_same _ _ _
  have hgetH : db_get_config db2 "ADMIN_PASSWORD_HASH" = Option.some (pbkdf2 p saltHex PBKDF2_ITERS) := by
    rw [hdb2]
    rw [db_get_config_set_other _ _ _ _ (by decide)]
    rw [db_get_config_set_other _ _ _ _ (by decide)]
    exact db_get_config_set_same _ _ _
  have hiters : itersOf (db_get_config db2 "ADMIN_PASSWORD_ITERS") = Option.some PBKDF2_ITERS := by
    rw [hgetI]
    decide
  have hverify : ∀ q, verify_admin_password pbkdf2 db2 secretEnv q =
      safeEq (pbkdf2 (pyOrEmpty q) saltHex PBKDF2_ITERS) (pbkdf2 p saltHex PBKDF2_ITERS) := by
    intro q
    simp only [verify_admin_password, hgetH, hgetS, hiters]
    rw [if_neg (by simp [hH, hsne])]
    rw [if_neg (by simp [hhex])]
  constructor
  · rw [hverify]
    simp [safeEq, pyOrEmpty_eq]
  · intro q hq
    rw [hverify]
    simp only [safeEq, pyOrEmpty_eq]
    exact beq_eq_false_iff_ne.mpr hq

def c8Hash : String → String → Nat → String :=
  fun pw saltHex iters => pw ++ "|" ++ saltHex ++ "|" ++ toString iters

theorem set_then_verify_spec_witness :
    verify_admin_password c8Hash
      (db_set_config (db_set_config (db_set_config ⟨false, [], [], []⟩
        "ADMIN_PASSWORD_HASH" (c8Hash "longenoughpw" "00ab" PBKDF2_ITERS)) "ADMIN_PASSWORD_SALT" "00ab")
        "ADMIN_PASSWORD_ITERS" "200000")
      (Option.some "external-secret") "longenoughpw" = true ∧
    verify_admin_password c8Hash
      (db_set_config (db_set_config (db_set_config ⟨false, [], [], []⟩
        "ADMIN_PASSWORD_HASH" (c8Hash "longenoughpw" "00ab" PBKDF2_ITERS)) "ADMIN_PASSWORD_SALT" "00ab")
        "ADMIN_PASSWORD_ITERS" "200000")
      (Option.some "external-secret") "wrong" = false := by
  have h := set_then_verify_spec c8Hash ⟨false, [], [], []⟩ (Option.some "external-secret")
    "longenoughpw" "00ab"
    (db_set_config (db_set_config (db_set_config ⟨false, [], [], []⟩
      "ADMIN_PASSWORD_HASH" (c8Hash "longenoughpw" "00ab" PBKDF2_ITERS)) "ADMIN_PASSWORD_SALT" "00ab")
      "ADMIN_PASSWORD_ITERS" "200000")
    (by decide) (by decide) (by decide) (by decide) (by decide) (by decide)
  exact ⟨h.1, h.2 "wrong" (by decide)⟩

/-! Facts about decimal representations: `str(int)` never strips to the
empty string, which the blank test inside `validate_r5` relies on. -/

theorem digitChar_not_space (n : Nat) : isPySpace (Nat.digitChar n) = false := by
  by_cases h : n < 16
  · interval_cases n <;> decide
  · unfold Nat.digitChar
    repeat rw [if_neg (by omega)]
    decide

theorem toDigitsCore_not_space (b : Nat) (fuel : Nat) : ∀ (n : Nat) (ds : List Char),
    (∀ c ∈ ds, isPySpace c = false) →
    ∀ c ∈ Nat.toDigitsCore b fuel n ds, isPySpace c = false := by
  induction fuel with
  | zero =>
    intro n ds h c hc
    exact h c hc
  | succ fuel ih =>
    intro n ds h c hc
    simp only [Nat.toDigitsCore] at hc
    have hcons : ∀ c2 ∈ Nat.digitChar (n % b) :: ds, isPySpace c2 = false := by
      intro c2 hc2
      rcases List.mem_cons.mp hc2 with h1 | h1
      · rw [h1]
        exact digitChar_not_space _
      · exact h c2 h1
    split at hc
    · exact hcons c hc
    · exact ih _ _ hcons c hc

theorem toDigitsCore_ne_nil (b : Nat) (fuel : Nat) : ∀ (n : Nat) (ds : List Char),
    ds ≠ [] → Nat.toDigitsCore b fuel n ds ≠ [] := by
  induction fuel with
  | zero =>
    intro n ds h
    simpa [Nat.toDigitsCore] using h
  | succ fuel ih =>
    intro n ds h
    simp only [Nat.toDigitsCore]
    split
    · simp
    · exact ih _ _ (by simp)

theorem toDigits_not_space (n : Nat) : ∀ c ∈ Nat.toDigits 10 n, isPySpace c = false := by
  unfold Nat.toDigits
  exact toDigitsCore_not_space 10 (n + 1) n [] (by intro c hc; cases hc)

theorem toDigits_ne_nil (n : Nat) : Nat.toDigits 10 n ≠ [] := by
  unfold Nat.toDigits
  simp only [Nat.toDigitsCore]
  split
  · simp
  · exact toDigitsCore_ne_nil 10 n _ _ (by simp)

theorem nat_repr_data_not_space (n : Nat) : ∀ c ∈ (Nat.repr n).data, isPySpace c = false :=
  toDigits_not_space n

theorem nat_repr_data_ne_nil (n : Nat) : (Nat.repr n).data ≠ [] :=
  toDigits_ne_nil n

theorem int_toString_not_space (n : Int) : ∀ c ∈ (toString n).data, isPySpace c = false := by
  cases n with
  | ofNat m => exact nat_repr_data_not_space m
  | negSucc m =>
    intro c hc
    rcases List.mem_cons.mp hc with h1 | h1
    · rw [h1]
      decide
    · exact nat_repr_data_not_space (m + 1) c h1

theorem int_toString_data_ne_nil (n : Int) : (toString n).data ≠ [] := by
  cases n with
  | ofNat m => exact nat_repr_data_ne_nil m
  | negSucc m =>
    intro hc
    have hc2 : ("-" ++ toString (Nat.succ m)).data = [] := hc
    rw [String.data_append] at hc2
    exact absurd (List.append_eq_nil.mp hc2).1 (by decide)

theorem pyTrim_eq_self_of_nonspace (s : String)
    (h : ∀ c ∈ s.data, isPySpace c = false) : pyTrim s = s := by
  cases s with
  | mk d =>
    show String.mk (pyTrimChars d) = String.mk d
    rw [pyTrimChars_of_trimmed d
      (fun a ha => h a (List.mem_of_mem_head? ha))
      (fun a ha => h a (by
        rw [List.getLast?_eq_head?_reverse] at ha
        simpa using List.mem_of_mem_head? ha))]

theorem int_toString_nonblank (n : Int) : pyTrim (toString n) ≠ "" := by
  rw [pyTrim_eq_self_of_nonspace _ (int_toString_not_space n)]
  intro hc
  exact int_toString_data_ne_nil n (congrArg String.data hc)

theorem pyStrToInt_of_blank (s : String) (hb : pyTrim s = "") : pyStrToInt s = Option.none := by
  unfold pyStrToInt
  have hc : pyTrimChars s.data = [] := congrArg String.data hb
  rw [hc]

/-- The per-criterion acceptance test of `validate_r5`: the recorded raw
value (with the legacy `gap` alias for `availability`) converts to an
integer in [0,3]. -/
def critOk (row : List (String × Val)) (k : String) : Bool :=
  match pyToInt (critRaw row k) with
  | Option.some v => decide (0 ≤ v ∧ v ≤ 3)
  | Option.none => false

/-- A flattened indicator's scoring entry is complete: present in the
scoring map, with all three criteria scored in range. -/
def scoreEntryOk (scoring : List (String × Val)) (s : Val) : Bool :=
  scoreKeyPresent scoring s &&
  ["demand", "availability", "feasibility"].all (critOk (scRowOf scoring s))

theorem critErrs_eq_nil_iff (lang : String) (row : List (String × Val)) (s : Val) (k : String) :
    critErrs lang row s k = [] ↔ critOk row k = true := by
  simp only [critErrs, critOk]
  cases hv : critRaw row k with
  | none =>
    rw [if_pos (Or.inl rfl)]
    simp [pyToInt]
  | str str_s =>
    by_cases hb : pyTrim str_s = ""
    · rw [if_pos (Or.inr (by simpa [pyStr] using hb))]
      simp [pyToInt, pyStrToInt_of_blank str_s hb]
    · rw [if_neg (by
        rintro (h | h)
        · exact Val.noConfusion h
        · exact hb (by simpa [pyStr] using h))]
      cases hp : pyToInt (Val.str str_s) with
      | none => simp [hp]
      | some v =>
        simp only [hp]
        rw [if_msg_eq_nil]
        rw [decide_eq_true_eq]
        omega
  | int n =>
    rw [if_neg (by
      rintro (h | h)
      · exact Val.noConfusion h
      · exact int_toString_nonblank n (by simpa [pyStr] using h))]
    simp only [pyToInt]
    rw [if_msg_eq_nil]
    rw [decide_eq_true_eq]
    omega
  | list xs =>
    rw [if_neg (by
      rintro (h | h)
      · exact Val.noConfusion h
      · rw [show pyStr (Val.list xs) = "[...]" from rfl] at h
        exact absurd h (by decide))]
    simp [pyToInt]
  | dict kvs =>
    rw [if_neg (by
      rintro (h | h)
      · exact Val.noConfusion h
      · rw [show pyStr (Val.dict kvs) = "\x7b...\x7d" from rfl] at h
        exact absurd h (by decide))]
    simp [pyToInt]

theorem perStatErrs_eq_nil_iff (lang : String) (scoring : List (String × Val)) (s : Val) :
    perStatErrs lang scoring s = [] ↔ scoreEntryOk scoring s = true := by
  unfold perStatErrs scoreEntryOk
  cases hk : scoreKeyPresent scoring s with
  | false =>
    rw [if_pos rfl]
    simp
  | true =>
    rw [if_neg (by simp)]
    rw [List.flatMap_eq_nil_iff]
    simp only [Bool.true_and]
    rw [List.all_eq_true]
    constructor
    · intro h k hkmem
      exact (critErrs_eq_nil_iff lang (scRowOf scoring s) s k).mp (h k hkmem)
    · intro h k hkmem
      exact (critErrs_eq_nil_iff lang (scRowOf scoring s) s k).mpr (h k hkmem)

/-- C3: over a `top5_domains` list of exactly five domains, `validate_r5`
returns no error exactly when every one of those domains has 1 to 3
selected indicators, the flattened selection has 5 to 15 entries with no
duplicate, and every flattened indicator has a complete scoring entry
(three integer criteria in [0,3], the legacy `gap` key accepted in place
of `availability`). -/
theorem validate_r5_spec (lang : String) (rs : RespMap) (doms : List Val)
    (h5 : top5ValOf rs = Val.list doms) (hlen : doms.length = 5) :
    validate_r5 lang rs = [] ↔
      ((∀ d ∈ doms, 1 ≤ (statsFor rs d).length ∧ (statsFor rs d).length ≤ 3) ∧
       5 ≤ (allStatsOf rs).length ∧ (allStatsOf rs).length ≤ 15 ∧
       (allStatsOf rs).Nodup ∧
       ∀ s ∈ allStatsOf rs, scoreEntryOk (scoringOf rs) s = true) := by
  simp only [validate_r5, h5, pyIter, List.append_eq_nil, List.flatMap_eq_nil_iff,
    if_msg_eq_nil, perStatErrs_eq_nil_iff, not_or, not_lt, Bool.not_eq_false, pyNoDup_iff]
  tauto

theorem validate_r5_spec_witness :
    validate_r5 "en" fullResponses = [] ∧
    (∀ s ∈ allStatsOf fullResponses, scoreEntryOk (scoringOf fullResponses) s = true) := by
  have h := validate_r5_spec "en" fullResponses
    [Val.str "D01", Val.str "D02", Val.str "D03", Val.str "D04", Val.str "D05"] rfl (by decide)
  exact ⟨h.mpr (by decide), by decide⟩
